import Mathlib

/-!
Shallow embedding of the `launch-node-app` project generator (src/index.js).

The generator asks a fixed questionnaire (an `AnswerSet`), then deterministically
produces a project skeleton: an ordered sequence of filesystem operations
(directory creations and file writes) together with a runtime and a dev
dependency list, plus an npm-scripts update of the generated manifest and a
version-resolving dependency installer.  All string contents below are
transcribed byte-for-byte from the template literals of src/index.js.
-/

set_option maxRecDepth 100000

namespace LaunchNode

/-- Language choice offered by the questionnaire (src/index.js line 59). -/
inductive Lang where
  | javascript
  | typescript
deriving DecidableEq

/-- The structured result of the interactive questionnaire (src/index.js lines 48-91). -/
structure AnswerSet where
  projectName : String
  language : Lang
  enableCORS : Bool
  basicErrorHandler : Bool
  envFile : Bool
  morganLogging : Bool
  docker : Bool
deriving DecidableEq

/-- A filesystem path, as the list of its components (relative to the working directory). -/
abbrev Path := List String

/-- One planned filesystem operation. -/
inductive FileOp where
  | mkDir (p : Path)
  | writeFile (p : Path) (content : String)
deriving DecidableEq

/-- Content of `src/utils/errorHandler.ts` (src/index.js lines 196-204). -/
def errorHandlerContent : String :=
  "export class ErrorHandler extends Error \x7b\n  public statusCode: number;\n\n  constructor(message: string, statusCode: number = 500) \x7b\n    super(message);\n    this.statusCode = statusCode;\n    Error.captureStackTrace(this, this.constructor);\n  \x7d\n\x7d"

/-- The base Express app setup fragment (src/index.js lines 243-246). -/
def appSetupBase : String :=
  "\n    const app = express();\n    app.use(express.json());\n    "

/-- The fixed tail of the entry file (src/index.js lines 266-280). -/
def remainingSetup : String :=
  "\n    const envMode = process.env.NODE_ENV || \x27development\x27;  // Default to \x27development\x27\n    \n    // Define the port from the environment variable or default to 3000\n    const port = process.env.PORT || 3000;\n    \n    // Start the server on the specified port\n    app.listen(port, () => \x7b\n      console.log(\x60Server running in $\x7benvMode\x7d mode on port $\x7bport\x7d\x60);\n    \x7d);\n    \n    app.get(\x27/\x27, (req, res) => \x7b\n      res.send(\x27Hello World\x27);\n    \x7d);\n    "

/-- Content of the generated `.env` file (src/index.js lines 317-319). -/
def envContent : String :=
  "PORT=3000\nNODE_ENV=development\n"

/-- Content of the generated `tsconfig.json` (src/index.js lines 326-336). -/
def tsconfigContent : String :=
  "\x7b\n  \"compilerOptions\": \x7b\n    \"target\": \"ES6\",\n    \"module\": \"commonjs\",\n    \"outDir\": \"./dist\",\n    \"rootDir\": \"./src\",\n    \"strict\": true,\n    \"esModuleInterop\": true\n  \x7d,\n  \"exclude\": [\"node_modules\"]\n\x7d"

/-- Content of the error middleware file (src/index.js lines 342-368). -/
def errorMiddlewareContent : String :=
  "import \x7b NextFunction, Request, Response \x7d from \x27express\x27;\nimport \x7b ErrorHandler \x7d from \x27../utils/errorHandler\x27; \nimport \x7b envMode \x7d from \x27../app\x27; \n\nconst errorMiddleware = (err: ErrorHandler, req: Request, res: Response, next: NextFunction) => \x7b\n    err.message = err.message || \x27Internal Server Error\x27;\n    err.statusCode = err.statusCode || 500;\n\n    const response: \x7b\n        success: boolean;\n        message: string;\n        error?: ErrorHandler;\n    \x7d = \x7b\n        success: false,\n        message: err.message,\n    \x7d;\n\n    // Add the error object to the response if in development mode\n    if (envMode === \x27development\x27) \x7b\n        response.error = err;\n    \x7d\n\n    // Send the structured error response\n    res.status(err.statusCode).json(response);\n\x7d;\n\nexport default errorMiddleware;"

/-- Dockerfile template before the `envFile` interpolation point (src/index.js lines 379-394). -/
def dockerfilePartA : String :=
  "\nFROM node:20\n\n# Create and set the working directory\nWORKDIR /usr/src/app\n\n# Copy package.json and package-lock.json to the working directory\nCOPY package*.json ./\n\n# Install dependencies\nRUN npm install\n\n# Copy the rest of the application code to the working directory\nCOPY . .\n\n# Set the environment variable if using dotenv\n"

/-- Dockerfile template after the `envFile` interpolation point (src/index.js lines 395-402). -/
def dockerfilePartB : String :=
  "\n\n# Expose the application port\nEXPOSE 3000\n\n# Define the command to run the application\nCMD [\"npm\", \"run\", \"dev\"]\n"

/-- Dockerfile content (src/index.js lines 379-402): the `ENV` line is present iff `envFile`. -/
def dockerfileContent (envFile : Bool) : String :=
  dockerfilePartA ++ (if envFile then "ENV NODE_ENV=production" else "") ++ dockerfilePartB

/-- TypeScript import line for express (src/index.js line 219). -/
def tsImportExpress : String := "import express from \x27express\x27;\n"

/-- TypeScript import line for dotenv (src/index.js line 221). -/
def tsImportDotenv : String := "import dotenv from \x27dotenv\x27;\n"

/-- TypeScript import line for cors (src/index.js line 224). -/
def tsImportCors : String := "import cors from \x27cors\x27;\n"

/-- TypeScript import line for morgan (src/index.js line 227). -/
def tsImportMorgan : String := "import morgan from \x27morgan\x27;\n"

/-- JavaScript require line for express (src/index.js line 230). -/
def jsRequireExpress : String := "const express = require(\x27express\x27);\n"

/-- JavaScript require-and-config line for dotenv (src/index.js line 232). -/
def jsRequireDotenv : String := "require(\x27dotenv\x27).config();\n"

/-- JavaScript require line for cors (src/index.js line 235). -/
def jsRequireCors : String := "const cors = require(\x27cors\x27);\n"

/-- JavaScript require line for morgan (src/index.js line 238). -/
def jsRequireMorgan : String := "const morgan = require(\x27morgan\x27);\n"

/-- The dotenv.config() line prepended for TypeScript + envFile (src/index.js line 251). -/
def dotenvConfigLine : String :=
  "dotenv.config(); // Load environment variables from .env file\n"

/-- CORS middleware registration line (src/index.js line 257). -/
def corsUseLine : String := "app.use(cors()); // Enable CORS\n"

/-- Morgan middleware registration line (src/index.js line 262). -/
def morganUseLine : String := "app.use(morgan(\x27dev\x27)); // Use Morgan for logging\n"

/-- TypeScript export tail of the entry file (src/index.js line 288). -/
def tsExportTail : String := "export \x7b app, envMode \x7d; export default app;"

/-- JavaScript export tail of the entry file (src/index.js line 295). -/
def jsExportTail : String := "module.exports = \x7b app, envMode \x7d;"

/-- The entry-file content builder `appFileContent` (src/index.js lines 214-298). -/
def appFileContent (enableCORS morganLogging envFile : Bool) (language : Lang) : String :=
  let imports :=
    match language with
    | Lang.typescript =>
        tsImportExpress
          ++ (if envFile then tsImportDotenv else "")
          ++ (if enableCORS then tsImportCors else "")
          ++ (if morganLogging then tsImportMorgan else "")
    | Lang.javascript =>
        jsRequireExpress
          ++ (if envFile then jsRequireDotenv else "")
          ++ (if enableCORS then jsRequireCors else "")
          ++ (if morganLogging then jsRequireMorgan else "")
  let setup0 :=
    if language = Lang.typescript ∧ envFile = true then dotenvConfigLine ++ appSetupBase
    else appSetupBase
  let setup1 := if enableCORS then setup0 ++ corsUseLine else setup0
  let setup2 := if morganLogging then setup1 ++ morganUseLine else setup1
  match language with
  | Lang.typescript => imports ++ setup2 ++ remainingSetup ++ tsExportTail
  | Lang.javascript => imports ++ setup2 ++ remainingSetup ++ jsExportTail

/-- Entry-file name by language (src/index.js lines 301-304). -/
def appFileName : Lang → String
  | Lang.typescript => "app.ts"
  | Lang.javascript => "app.js"

/-- Error-middleware file name by language (src/index.js lines 370-373). -/
def errorMiddlewareFileName : Lang → String
  | Lang.typescript => "error.ts"
  | Lang.javascript => "error.js"

/-- The fixed `src` subfolders (src/index.js lines 169-176). -/
def folders : List String :=
  ["controllers", "middlewares", "models", "routes", "tests", "lib"]

/-- Runtime dependency list (src/index.js lines 136-147), in push order. -/
def dependencies (a : AnswerSet) : List String :=
  ["express"]
    ++ (if a.enableCORS then ["cors"] else [])
    ++ (if a.morganLogging then ["morgan"] else [])
    ++ (if a.envFile then ["dotenv"] else [])

/-- Dev dependency list (src/index.js lines 137, 148-158), in push order. -/
def devDependencies (a : AnswerSet) : List String :=
  ["nodemon"]
    ++ (if a.language = Lang.typescript then
          ["typescript", "@types/express", "@types/node", "ts-node"]
            ++ (if a.enableCORS then ["@types/cors"] else [])
            ++ (if a.morganLogging then ["@types/morgan"] else [])
        else [])

/-- The ordered sequence of filesystem operations the generator performs
(src/index.js: mkdir at lines 101, 180, 186, 192; writes at lines 206, 306,
321, 338, 375, 405), in source order. -/
def planOps (a : AnswerSet) : List FileOp :=
  let n := a.projectName
  [FileOp.mkDir [n],
   FileOp.mkDir [n, "src"]]
    ++ folders.map (fun f => FileOp.mkDir [n, "src", f])
    ++ [FileOp.mkDir [n, "src", "utils"],
        FileOp.writeFile [n, "src", "utils", "errorHandler.ts"] errorHandlerContent,
        FileOp.writeFile [n, "src", appFileName a.language]
          (appFileContent a.enableCORS a.morganLogging a.envFile a.language)]
    ++ (if a.envFile then [FileOp.writeFile [n, ".env"] envContent] else [])
    ++ (if a.language = Lang.typescript then
          [FileOp.writeFile [n, "tsconfig.json"] tsconfigContent]
        else [])
    ++ [FileOp.writeFile [n, "src", "middlewares", errorMiddlewareFileName a.language]
          errorMiddlewareContent]
    ++ (if a.docker then
          [FileOp.writeFile [n, "Dockerfile"] (dockerfileContent a.envFile)]
        else [])

/-- Value of the `dev` npm script (src/index.js lines 119, 125). -/
def devScript : Lang → String
  | Lang.typescript => "nodemon src/app.ts"
  | Lang.javascript => "nodemon src/app.js"

/-- Value of the `watch` npm script (src/index.js lines 120, 126). -/
def watchScript : Lang → String
  | Lang.typescript => "tsc -w"
  | Lang.javascript => ""

/-- The scripts table after the spread-merge `{...scripts, dev, watch}`
(src/index.js lines 116-128), as a lookup function over script names. -/
def updatedScripts (orig : String → Option String) (l : Lang) : String → Option String :=
  fun k =>
    if k = "dev" then some (devScript l)
    else if k = "watch" then some (watchScript l)
    else orig k

/-- Whitespace as trimmed by JavaScript's `String.prototype.trim`. -/
def jsWhitespace (c : Char) : Bool :=
  c == ' ' || c == '\t' || c == '\n' || c == '\r'

/-- `stdout.trim()` (src/index.js line 21). -/
def jsTrim (s : String) : String :=
  String.mk (((s.data.dropWhile jsWhitespace).reverse.dropWhile jsWhitespace).reverse)

/-- `getLatestPackageVersion` (src/index.js lines 18-26): the external
`npm show <name> version` query is an oracle `q`; success returns the trimmed
stdout, failure is caught and reported as `none` (`null`). -/
def getLatestPackageVersion (q : String → Option String) (name : String) : Option String :=
  match q name with
  | some out => some (jsTrim out)
  | none => none

/-- JavaScript template-literal stringification of the resolved version:
`null` prints as the text "null" (src/index.js line 33). -/
def versionText : Option String → String
  | some v => v
  | none => "null"

/-- The `name@version` entries built by `installDependencies`
(src/index.js lines 30-35), one per dependency in order. -/
def depVersions (q : String → Option String) (deps : List String) : List String :=
  deps.map (fun dep => dep ++ "@" ++ versionText (getLatestPackageVersion q dep))

/-- `Array.prototype.join(" ")` (src/index.js line 36). -/
def joinSpace : List String → String
  | [] => ""
  | [s] => s
  | s :: t :: rest => s ++ " " ++ joinSpace (t :: rest)

/-- The single install command string (src/index.js line 37). -/
def installCommand (q : String → Option String) (deps : List String) (isDev : Bool) : String :=
  "npm install " ++ (if isDev then "-D" else "") ++ " " ++ joinSpace (depVersions q deps)

/-- Decidable check: `pre` is a prefix of the second list. -/
def hasPre : List Char → List Char → Bool
  | [], _ => true
  | _ :: _, [] => false
  | c :: cs, d :: ds => c == d && hasPre cs ds

/-- Decidable check: `needle` occurs contiguously inside the second list. -/
def hasSub (needle : List Char) : List Char → Bool
  | [] => needle.isEmpty
  | c :: cs => hasPre needle (c :: cs) || hasSub needle cs

/-- Decidable check: `needle` occurs as a substring of `hay`. -/
def containsText (needle hay : String) : Bool :=
  hasSub needle.data hay.data

/-- Decidable check: `s` ends with `tail_`. -/
def endsWithText (tail_ s : String) : Bool :=
  hasPre tail_.data.reverse s.data.reverse

/-- Last component of a path (the file name). -/
def lastName : Path → String
  | [] => ""
  | [x] => x
  | _ :: y :: rest => lastName (y :: rest)

/-- Parent directory of a path (all components but the last). -/
def dirOf : Path → Path
  | [] => []
  | [_] => []
  | x :: y :: rest => x :: dirOf (y :: rest)

/-- The write operations in `ops` whose file name is `nm`, as (path, content) pairs. -/
def writesNamed (nm : String) (ops : List FileOp) : List (Path × String) :=
  ops.filterMap (fun op =>
    match op with
    | FileOp.writeFile p c => if lastName p = nm then some (p, c) else none
    | FileOp.mkDir _ => none)

/-- The write operations in `ops` whose parent directory is `dir`. -/
def writesInDir (dir : Path) (ops : List FileOp) : List (Path × String) :=
  ops.filterMap (fun op =>
    match op with
    | FileOp.writeFile p c => if dirOf p = dir then some (p, c) else none
    | FileOp.mkDir _ => none)

/-- Every write in the sequence has its parent directory among the directories
created so far (`made` is the set of directories already created). -/
def dirsBefore (made : List Path) : List FileOp → Prop
  | [] => True
  | FileOp.mkDir p :: rest => dirsBefore (p :: made) rest
  | FileOp.writeFile p _ :: rest => dirOf p ∈ made ∧ dirsBefore made rest

/-- The JavaScript demo AnswerSet of the spec's first scenario. -/
def demoAnswers : AnswerSet :=
  ⟨"demo", Lang.javascript, true, true, true, false, false⟩

/-- The TypeScript + docker variant of the demo AnswerSet. -/
def demoTsDocker : AnswerSet :=
  ⟨"demo", Lang.typescript, true, true, true, false, true⟩

/-- A sample version oracle failing on `cors` and succeeding elsewhere. -/
def sampleQuery : String → Option String :=
  fun name => if name = "cors" then none else some "1.0.0\n"

/-- Joining with spaces keeps every element of the list as a contiguous
substring of the result. -/
theorem joinSpace_decomp (s : String) :
    ∀ l : List String, s ∈ l → ∃ pre post, joinSpace l = pre ++ s ++ post := by
  intro l
  induction l with
  | nil => intro h; exact absurd h (List.not_mem_nil s)
  | cons x rest ih =>
    intro h
    cases rest with
    | nil =>
      have hx : s = x := by simpa using h
      subst hx
      exact ⟨"", "", by simp [joinSpace, String.empty_append, String.append_empty]⟩
    | cons y t =>
      rcases List.mem_cons.mp h with hx | hmem
      · subst hx
        exact ⟨"", " " ++ joinSpace (y :: t),
          by simp [joinSpace, String.append_assoc, String.empty_append]⟩
      · obtain ⟨pre, post, hp⟩ := ih hmem
        exact ⟨x ++ " " ++ pre, post, by simp [joinSpace, hp, String.append_assoc]⟩

/-- If every write in the remaining sequence is covered by an already-created
directory, then for any write at index `i` its parent directory was either
created before the sequence started or by an earlier `mkDir` operation. -/
theorem dirsBefore_get :
    ∀ (ops : List FileOp) (made : List Path), dirsBefore made ops →
      ∀ (i : Nat) (hi : i < ops.length) (p : Path) (c : String),
        ops.get ⟨i, hi⟩ = FileOp.writeFile p c →
        dirOf p ∈ made ∨
          ∃ j, ∃ hj : j < ops.length, j < i ∧ ops.get ⟨j, hj⟩ = FileOp.mkDir (dirOf p) := by
  intro ops
  induction ops with
  | nil =>
    intro made _ i hi
    exact absurd hi (by simp)
  | cons op rest ih =>
    intro made hdb i hi p c hw
    cases op with
    | mkDir q =>
      have hdb' : dirsBefore (q :: made) rest := hdb
      cases i with
      | zero => simp [List.get] at hw
      | succ k =>
        have hk : k < rest.length := Nat.lt_of_succ_lt_succ (by simpa using hi)
        have hw' : rest.get ⟨k, hk⟩ = FileOp.writeFile p c := by simpa [List.get] using hw
        rcases ih (q :: made) hdb' k hk p c hw' with hm | ⟨j, hj, hji, hg⟩
        · rcases List.mem_cons.mp hm with he | hm'
          · refine Or.inr ⟨0, by simp, Nat.succ_pos k, ?_⟩
            simp [List.get, he]
          · exact Or.inl hm'
        · refine Or.inr ⟨j + 1, by simpa using Nat.succ_lt_succ hj,
            Nat.succ_lt_succ hji, ?_⟩
          simpa [List.get] using hg
    | writeFile q cq =>
      obtain ⟨hqm, hdb'⟩ := hdb
      cases i with
      | zero =>
        have hqp : q = p := by
          have h0 := hw
          simp [List.get] at h0
          exact h0.1
        exact Or.inl (hqp ▸ hqm)
      | succ k =>
        have hk : k < rest.length := Nat.lt_of_succ_lt_succ (by simpa using hi)
        have hw' : rest.get ⟨k, hk⟩ = FileOp.writeFile p c := by simpa [List.get] using hw
        rcases ih made hdb' k hk p c hw' with hm | ⟨j, hj, hji, hg⟩
        · exact Or.inl hm
        · refine Or.inr ⟨j + 1, by simpa using Nat.succ_lt_succ hj,
            Nat.succ_lt_succ hji, ?_⟩
          simpa [List.get] using hg

/-- Every plan sequence creates parent directories before writing into them. -/
theorem plan_dirsBefore (a : AnswerSet) : dirsBefore [] (planOps a) := by
  rcases a with ⟨n, l, co, beh, env, mo, dk⟩
  cases l <;> cases env <;> cases dk <;>
    simp [planOps, folders, dirsBefore, dirOf, appFileName, errorMiddlewareFileName]

/-- The error-handler utility write is part of every plan. -/
theorem errorHandler_mem (a : AnswerSet) :
    FileOp.writeFile [a.projectName, "src", "utils", "errorHandler.ts"] errorHandlerContent
      ∈ planOps a := by
  rcases a with ⟨n, l, co, beh, env, mo, dk⟩
  cases l <;> cases env <;> cases dk <;> simp [planOps, folders]

/-- The error-middleware write is part of every plan. -/
theorem errorMiddleware_mem (a : AnswerSet) :
    FileOp.writeFile [a.projectName, "src", "middlewares", errorMiddlewareFileName a.language]
      errorMiddlewareContent ∈ planOps a := by
  rcases a with ⟨n, l, co, beh, env, mo, dk⟩
  cases l <;> cases env <;> cases dk <;>
    simp [planOps, folders, errorMiddlewareFileName]

/-- C1: planning/generation is deterministic — two AnswerSets with identical
field values produce the identical operation sequence (hence byte-identical
file contents: entry file, error handler, middleware, tsconfig, .env,
Dockerfile) and identical runtime and dev dependency lists. -/
theorem plan_deterministic (a b : AnswerSet)
    (h1 : a.projectName = b.projectName) (h2 : a.language = b.language)
    (h3 : a.enableCORS = b.enableCORS) (h4 : a.basicErrorHandler = b.basicErrorHandler)
    (h5 : a.envFile = b.envFile) (h6 : a.morganLogging = b.morganLogging)
    (h7 : a.docker = b.docker) :
    planOps a = planOps b ∧ dependencies a = dependencies b ∧
      devDependencies a = devDependencies b := by
  have hab : a = b := by
    rcases a with ⟨n1, l1, c1, b1, e1, m1, d1⟩
    rcases b with ⟨n2, l2, c2, b2, e2, m2, d2⟩
    simp_all
  subst hab
  exact ⟨rfl, rfl, rfl⟩

/-- C1 witness: two syntactically distinct but field-identical demo AnswerSets
yield the same plan and the same dependency lists. -/
theorem plan_deterministic_witness :
    planOps demoAnswers = planOps ⟨"demo", Lang.javascript, true, true, true, false, false⟩ ∧
      dependencies demoAnswers =
        dependencies ⟨"demo", Lang.javascript, true, true, true, false, false⟩ ∧
      devDependencies demoAnswers =
        devDependencies ⟨"demo", Lang.javascript, true, true, true, false, false⟩ :=
  plan_deterministic demoAnswers ⟨"demo", Lang.javascript, true, true, true, false, false⟩
    rfl rfl rfl rfl rfl rfl rfl

/-- C2: the `basicErrorHandler` toggle is dead configuration — two AnswerSets
that differ only in it produce the identical operation sequence and identical
dependency lists, and the error-handler utility and error middleware are
written (with their fixed contents) in either case. -/
theorem plan_ignores_basicErrorHandler (a b : AnswerSet)
    (h1 : a.projectName = b.projectName) (h2 : a.language = b.language)
    (h3 : a.enableCORS = b.enableCORS) (h5 : a.envFile = b.envFile)
    (h6 : a.morganLogging = b.morganLogging) (h7 : a.docker = b.docker) :
    planOps a = planOps b ∧ dependencies a = dependencies b ∧
      devDependencies a = devDependencies b ∧
      FileOp.writeFile [a.projectName, "src", "utils", "errorHandler.ts"]
        errorHandlerContent ∈ planOps a ∧
      FileOp.writeFile [a.projectName, "src", "middlewares",
        errorMiddlewareFileName a.language] errorMiddlewareContent ∈ planOps a := by
  refine ⟨?_, ?_, ?_, errorHandler_mem a, errorMiddleware_mem a⟩ <;>
    · rcases a with ⟨n1, l1, c1, b1, e1, m1, d1⟩
      rcases b with ⟨n2, l2, c2, b2, e2, m2, d2⟩
      simp only at h1 h2 h3 h5 h6 h7
      subst h1; subst h2; subst h3; subst h5; subst h6; subst h7
      rfl

/-- C2 witness: flipping only `basicErrorHandler` on the demo AnswerSet changes
nothing in the plan or the dependency lists. -/
theorem plan_ignores_basicErrorHandler_witness :
    planOps demoAnswers = planOps ⟨"demo", Lang.javascript, true, false, true, false, false⟩ ∧
      dependencies demoAnswers =
        dependencies ⟨"demo", Lang.javascript, true, false, true, false, false⟩ ∧
      devDependencies demoAnswers =
        devDependencies ⟨"demo", Lang.javascript, true, false, true, false, false⟩ ∧
      FileOp.writeFile ["demo", "src", "utils", "errorHandler.ts"]
        errorHandlerContent ∈ planOps demoAnswers ∧
      FileOp.writeFile ["demo", "src", "middlewares", "error.js"]
        errorMiddlewareContent ∈ planOps demoAnswers :=
  plan_ignores_basicErrorHandler demoAnswers
    ⟨"demo", Lang.javascript, true, false, true, false, false⟩ rfl rfl rfl rfl rfl rfl

/-- C3: `docker=false` means the plan contains no Dockerfile write, and
`docker=true` means it contains exactly one, placed directly under the
project root. -/
theorem docker_toggle_gates_dockerfile (a : AnswerSet) :
    (a.docker = false → writesNamed "Dockerfile" (planOps a) = []) ∧
    (a.docker = true →
      writesNamed "Dockerfile" (planOps a) =
        [([a.projectName, "Dockerfile"], dockerfileContent a.envFile)]) := by
  rcases a with ⟨n, l, co, beh, env, mo, dk⟩
  cases l <;> cases env <;> cases dk <;>
    simp [planOps, folders, writesNamed, lastName, appFileName, errorMiddlewareFileName]

/-- C3 witness: the docker-enabled demo AnswerSet produces exactly one
Dockerfile write, directly under the project root. -/
theorem docker_toggle_gates_dockerfile_witness :
    writesNamed "Dockerfile" (planOps demoTsDocker) =
      [(["demo", "Dockerfile"], dockerfileContent true)] :=
  (docker_toggle_gates_dockerfile demoTsDocker).2 rfl

/-- C4: `language=JavaScript` means no tsconfig.json write; `language=TypeScript`
means exactly one tsconfig.json write, directly under the project root, whose
content contains the text `"strict": true`. -/
theorem language_gates_tsconfig (a : AnswerSet) :
    (a.language = Lang.javascript → writesNamed "tsconfig.json" (planOps a) = []) ∧
    (a.language = Lang.typescript →
      writesNamed "tsconfig.json" (planOps a) =
        [([a.projectName, "tsconfig.json"], tsconfigContent)] ∧
      ∃ pre post, tsconfigContent = pre ++ "\"strict\": true" ++ post) := by
  constructor
  · intro hl
    rcases a with ⟨n, l, co, beh, env, mo, dk⟩
    simp only at hl
    subst hl
    cases env <;> cases dk <;>
      simp [planOps, folders, writesNamed, lastName, appFileName, errorMiddlewareFileName]
  · intro hl
    constructor
    · rcases a with ⟨n, l, co, beh, env, mo, dk⟩
      simp only at hl
      subst hl
      cases env <;> cases dk <;>
        simp [planOps, folders, writesNamed, lastName, appFileName, errorMiddlewareFileName]
    · exact ⟨"\x7b\n  \"compilerOptions\": \x7b\n    \"target\": \"ES6\",\n    \"module\": \"commonjs\",\n    \"outDir\": \"./dist\",\n    \"rootDir\": \"./src\",\n    ",
        ",\n    \"esModuleInterop\": true\n  \x7d,\n  \"exclude\": [\"node_modules\"]\n\x7d",
        by decide⟩

/-- C4 witness: the TypeScript demo AnswerSet produces exactly one
tsconfig.json write and its content contains the strict-mode setting. -/
theorem language_gates_tsconfig_witness :
    writesNamed "tsconfig.json" (planOps demoTsDocker) =
      [(["demo", "tsconfig.json"], tsconfigContent)] ∧
    ∃ pre post, tsconfigContent = pre ++ "\"strict\": true" ++ post :=
  (language_gates_tsconfig demoTsDocker).2 rfl

/-- C5: for the demo AnswerSet (JavaScript, CORS on, env file on, morgan off,
docker off) the runtime dependency list is exactly express, cors, dotenv; the
dev dependency list is exactly nodemon; the generated entry file is written,
contains the cors require line and contains no occurrence of "morgan"; a .env
file is written; and neither a Dockerfile nor a tsconfig.json is written. -/
theorem demo_scenario_plan :
    dependencies demoAnswers = ["express", "cors", "dotenv"] ∧
    devDependencies demoAnswers = ["nodemon"] ∧
    FileOp.writeFile ["demo", "src", "app.js"]
      (appFileContent true false true Lang.javascript) ∈ planOps demoAnswers ∧
    containsText jsRequireCors (appFileContent true false true Lang.javascript) = true ∧
    containsText "morgan" (appFileContent true false true Lang.javascript) = false ∧
    FileOp.writeFile ["demo", ".env"] envContent ∈ planOps demoAnswers ∧
    writesNamed "Dockerfile" (planOps demoAnswers) = [] ∧
    writesNamed "tsconfig.json" (planOps demoAnswers) = [] :=
  ⟨by decide, by decide, by decide, by decide, by decide, by decide, by decide, by decide⟩

/-- C6 counterexample: the claim says that for `language=JavaScript` the
error-handler utility is written in JavaScript syntax with a JavaScript file
extension.  On the JavaScript demo AnswerSet the unique write into the utils
directory is `errorHandler.ts` — a `.ts` file, not a `.js` one — and its
content carries the TypeScript field declaration `public statusCode: number;`. -/
theorem errorHandler_js_extension_refuted :
    demoAnswers.language = Lang.javascript ∧
    writesInDir ["demo", "src", "utils"] (planOps demoAnswers) =
      [(["demo", "src", "utils", "errorHandler.ts"], errorHandlerContent)] ∧
    endsWithText ".js" "errorHandler.ts" = false ∧
    endsWithText ".ts" "errorHandler.ts" = true ∧
    containsText "public statusCode: number;" errorHandlerContent = true :=
  ⟨rfl, by decide, by decide, by decide, by decide⟩

/-- C6 (amended): for every AnswerSet — whatever the language — the
error-handler utility is written exactly once into the utils directory, always
as `errorHandler.ts` with the same fixed TypeScript content (containing the
annotated field `public statusCode: number;`). -/
theorem errorHandler_always_typescript (a : AnswerSet) :
    writesInDir [a.projectName, "src", "utils"] (planOps a) =
      [([a.projectName, "src", "utils", "errorHandler.ts"], errorHandlerContent)] ∧
    containsText "public statusCode: number;" errorHandlerContent = true := by
  constructor
  · rcases a with ⟨n, l, co, beh, env, mo, dk⟩
    cases l <;> cases env <;> cases dk <;>
      simp [planOps, folders, writesInDir, dirOf, appFileName, errorMiddlewareFileName]
  · decide

/-- C7: the version resolver never throws past its boundary — for every oracle
outcome it returns either a trimmed version string or `none` — and in a batch,
a package whose own query succeeds is resolved and passed to the single
install command no matter how the oracle behaves on every other package. -/
theorem resolver_failsoft_batch (q : String → Option String) (deps : List String)
    (d v : String) (hmem : d ∈ deps) (hok : q d = some v) :
    (∀ name, q name = none → getLatestPackageVersion q name = none) ∧
    getLatestPackageVersion q d = some (jsTrim v) ∧
    (depVersions q deps).length = deps.length ∧
    (d ++ "@" ++ jsTrim v) ∈ depVersions q deps ∧
    ∃ pre post, installCommand q deps false = pre ++ (d ++ "@" ++ jsTrim v) ++ post := by
  have hres : getLatestPackageVersion q d = some (jsTrim v) := by
    simp [getLatestPackageVersion, hok]
  have hentry : (d ++ "@" ++ jsTrim v) ∈ depVersions q deps := by
    have : d ++ "@" ++ versionText (getLatestPackageVersion q d) = d ++ "@" ++ jsTrim v := by
      rw [hres]; rfl
    exact this ▸ List.mem_map_of_mem _ hmem
  refine ⟨?_, hres, by simp [depVersions], hentry, ?_⟩
  · intro name h
    simp [getLatestPackageVersion, h]
  · obtain ⟨pre, post, hp⟩ := joinSpace_decomp _ _ hentry
    exact ⟨"npm install " ++ (if false then "-D" else "") ++ " " ++ pre, post,
      by simp [installCommand, hp, String.append_assoc]⟩

/-- C7 witness: with an oracle that fails on `cors` but succeeds on `express`,
the package `express` still resolves (to the trimmed version) and appears in
the install command despite the failure of the other batch member. -/
theorem resolver_failsoft_batch_witness :
    ("express" ∈ ["express", "cors", "morgan"]) ∧
    sampleQuery "express" = some "1.0.0\n" ∧
    ((∀ name, sampleQuery name = none → getLatestPackageVersion sampleQuery name = none) ∧
      getLatestPackageVersion sampleQuery "express" = some (jsTrim "1.0.0\n") ∧
      (depVersions sampleQuery ["express", "cors", "morgan"]).length =
        (["express", "cors", "morgan"] : List String).length ∧
      ("express" ++ "@" ++ jsTrim "1.0.0\n")
        ∈ depVersions sampleQuery ["express", "cors", "morgan"] ∧
      ∃ pre post, installCommand sampleQuery ["express", "cors", "morgan"] false =
        pre ++ ("express" ++ "@" ++ jsTrim "1.0.0\n") ++ post) :=
  ⟨by decide, by decide,
    resolver_failsoft_batch sampleQuery ["express", "cors", "morgan"] "express" "1.0.0\n"
      (by decide) (by decide)⟩

/-- C8: the manifest update adds exactly the two script entries `dev` and
`watch` (every other script name is left unchanged); `dev` runs the entry file
under nodemon, and `watch` is the TypeScript recompile-on-change command
`tsc -w` for TypeScript and the empty string for JavaScript. -/
theorem manifest_scripts_dev_watch (orig : String → Option String) (l : Lang) (k : String)
    (hk1 : k ≠ "dev") (hk2 : k ≠ "watch") :
    updatedScripts orig l k = orig k ∧
    updatedScripts orig l "dev" = some ("nodemon src/" ++ appFileName l) ∧
    (l = Lang.typescript → updatedScripts orig l "watch" = some "tsc -w") ∧
    (l = Lang.javascript → updatedScripts orig l "watch" = some "") := by
  refine ⟨by simp [updatedScripts, hk1, hk2], ?_, ?_, ?_⟩
  · cases l <;> simp [updatedScripts, devScript, appFileName]
  · intro hl; subst hl; simp [updatedScripts, watchScript]
  · intro hl; subst hl; simp [updatedScripts, watchScript]

/-- C8 witness: for a JavaScript project, a third script name such as `test`
is untouched, `dev` runs nodemon on src/app.js, and `watch` is empty. -/
theorem manifest_scripts_dev_watch_witness :
    updatedScripts (fun _ => none) Lang.javascript "test" = (fun _ => none) "test" ∧
    updatedScripts (fun _ => none) Lang.javascript "dev" =
      some ("nodemon src/" ++ appFileName Lang.javascript) ∧
    (Lang.javascript = Lang.typescript →
      updatedScripts (fun _ => none) Lang.javascript "watch" = some "tsc -w") ∧
    (Lang.javascript = Lang.javascript →
      updatedScripts (fun _ => none) Lang.javascript "watch" = some "") :=
  manifest_scripts_dev_watch (fun _ => none) Lang.javascript "test"
    (by decide) (by decide)

/-- C9: in every plan sequence, the write of any file is preceded (strictly
earlier in the sequence) by a directory-creation operation for that file's
parent directory. -/
theorem plan_parent_dirs_first (a : AnswerSet) (i : Nat) (hi : i < (planOps a).length)
    (p : Path) (c : String) (hw : (planOps a).get ⟨i, hi⟩ = FileOp.writeFile p c) :
    ∃ j, ∃ hj : j < (planOps a).length, j < i ∧
      (planOps a).get ⟨j, hj⟩ = FileOp.mkDir (dirOf p) := by
  rcases dirsBefore_get (planOps a) [] (plan_dirsBefore a) i hi p c hw with hm | h
  · exact absurd hm (List.not_mem_nil _)
  · exact h

/-- C9 witness: in the demo plan the error-handler write sits at index 9, and
an earlier operation creates its parent directory `demo/src/utils`. -/
theorem plan_parent_dirs_first_witness :
    ∃ j, ∃ hj : j < (planOps demoAnswers).length, j < 9 ∧
      (planOps demoAnswers).get ⟨j, hj⟩ =
        FileOp.mkDir (dirOf ["demo", "src", "utils", "errorHandler.ts"]) :=
  plan_parent_dirs_first demoAnswers 9 (by decide)
    ["demo", "src", "utils", "errorHandler.ts"] errorHandlerContent (by decide)

/-- C10: when a package's version resolution fails, the installer does not
omit it — the `name@null` text (JavaScript's stringification of `null`) is
still an entry of the resolved list and occurs literally inside the single
install command string. -/
theorem failed_resolution_null_entry (q : String → Option String) (deps : List String)
    (d : String) (isDev : Bool) (hmem : d ∈ deps) (hfail : q d = none) :
    (d ++ "@null") ∈ depVersions q deps ∧
    ∃ pre post, installCommand q deps isDev = pre ++ (d ++ "@null") ++ post := by
  have hres : getLatestPackageVersion q d = none := by
    simp [getLatestPackageVersion, hfail]
  have hnull : d ++ "@" ++ versionText (getLatestPackageVersion q d) = d ++ "@null" := by
    rw [hres]
    show d ++ "@" ++ "null" = d ++ "@null"
    have hat : ("@" ++ "null" : String) = "@null" := by decide
    rw [String.append_assoc, hat]
  have hentry : (d ++ "@null") ∈ depVersions q deps :=
    hnull ▸ List.mem_map_of_mem _ hmem
  refine ⟨hentry, ?_⟩
  obtain ⟨pre, post, hp⟩ := joinSpace_decomp _ _ hentry
  exact ⟨"npm install " ++ (if isDev then "-D" else "") ++ " " ++ pre, post,
    by simp [installCommand, hp, String.append_assoc]⟩

/-- C10 witness: with an oracle failing on `cors`, the command built for the
batch express, cors keeps a `cors@null` entry instead of dropping cors. -/
theorem failed_resolution_null_entry_witness :
    ("cors" ++ "@null") ∈ depVersions sampleQuery ["express", "cors"] ∧
    ∃ pre post, installCommand sampleQuery ["express", "cors"] false =
      pre ++ ("cors" ++ "@null") ++ post :=
  failed_resolution_null_entry sampleQuery ["express", "cors"] "cors" false
    (by decide) (by decide)

end LaunchNode
